import Mathlib

/-!
# 2D feature tracking: the frame pipeline of `trackFeatures`

A shallow embedding of `src/2dFeatureTracking.cpp`.  The loop body of
`trackFeatures` is a function on an explicit run state; the detection,
description and matching routines, the image reader and the rectangle test
are library routines and enter as a record of functions.  Float values are
exact rationals extended with the IEEE special values, so that a division
by a zero count is visible; rounding is not modelled.
-/

set_option maxRecDepth 100000

namespace FeatureTracking

/-! ## Float values -/

/-- A `float`: an exact rational, an infinity (`neg = true` for the negative
one) or not-a-number. -/
inductive FVal where
  | num (q : ℚ)
  | inf (neg : Bool)
  | nan
deriving DecidableEq

namespace FVal

/-- Conversion of a container size to `float`. -/
def ofNat (n : Nat) : FVal := num (n : ℚ)

/-- Float addition `a + b`. -/
def add : FVal → FVal → FVal
  | num a, num b => num (a + b)
  | num _, inf s => inf s
  | inf s, num _ => inf s
  | inf s, inf t => if s = t then inf s else nan
  | nan, _ => nan
  | _, nan => nan

/-- Float subtraction `a - b`. -/
def sub : FVal → FVal → FVal
  | num a, num b => num (a - b)
  | num _, inf s => inf (!s)
  | inf s, num _ => inf s
  | inf s, inf t => if s = t then nan else inf s
  | nan, _ => nan
  | _, nan => nan

/-- The call `pow(a, 2)`. -/
def sq : FVal → FVal
  | num a => num (a * a)
  | inf _ => inf false
  | nan => nan

/-- Float division `a / n` by a container size or a non-negative literal:
`0 / 0` is not-a-number and a non-zero value over zero is an infinity. -/
def divCount : FVal → Nat → FVal
  | num a, n =>
    if n = 0 then
      if a = 0 then nan else if a < 0 then inf true else inf false
    else num (a / (n : ℚ))
  | inf s, _ => inf s
  | nan, _ => nan

/-- Whether the value is a not-a-number. -/
def isNaN : FVal → Bool
  | nan => true
  | _ => false

end FVal

/-! ## Data model -/

/-- A `cv::Point2f`. -/
structure Point2f where
  x : ℚ
  y : ℚ
deriving DecidableEq

/-- A `cv::KeyPoint`. -/
structure KeyPoint where
  pt : Point2f
  size : ℚ
  angle : ℚ
  response : ℚ
  octave : Int
  class_id : Int
deriving DecidableEq

/-- A `cv::Rect`: top-left corner, width and height. -/
structure Rect where
  x : Int
  y : Int
  width : Int
  height : Int
deriving DecidableEq

/-- A `cv::DMatch`. -/
structure DMatch where
  queryIdx : Int
  trainIdx : Int
  imgIdx : Int
  distance : ℚ
deriving DecidableEq

/-- A `cv::Mat`, as its rows. -/
abbrev Mat := List (List ℚ)

/-- The record of one frame (`DataFrame` of `dataStructures.h`, with the four
members `trackFeatures` reads and writes). -/
structure DataFrame where
  cameraImg : Mat
  keypoints : List KeyPoint
  descriptors : Mat
  kptMatches : List DMatch
deriving DecidableEq

/-- A default-constructed `DataFrame`. -/
def DataFrame.empty : DataFrame := ⟨[], [], [], []⟩

/-- The half-open rule of `cv::Rect::contains`, on the coordinates of the
point: `x <= pt.x < x + width` and `y <= pt.y < y + height`, so that the left
and top edge belong to the rectangle and the right and bottom edge do
not. -/
def rectRule (r : Rect) (pt : Point2f) : Bool :=
  decide ((r.x : ℚ) ≤ pt.x ∧ pt.x < (r.x : ℚ) + (r.width : ℚ)
    ∧ (r.y : ℚ) ≤ pt.y ∧ pt.y < (r.y : ℚ) + (r.height : ℚ))

/-- The routines `trackFeatures` calls and does not define: the image reader
and grayscale conversion, the three detection entry points, the rectangle
test `cv::Rect::contains`, the description routine and the matching routine.
Each takes the arguments of its call site and returns what the call site
reads back (for the timed routines, the result and the elapsed time).  The
rectangle test is the half-open rule on every point with integral
coordinates; how it converts a fractional coordinate of the `Point2f` it is
given to the integer type of the rectangle is left to the library. -/
structure Providers where
  imread : Nat → Mat
  cvtColor : Mat → Mat
  detKeypointsShiTomasi : Mat → Bool → List KeyPoint × FVal
  detKeypointsHarris : Mat → Bool → List KeyPoint × FVal
  detKeypointsModern : Mat → String → Bool → List KeyPoint × FVal
  rectContains : Rect → Point2f → Bool
  rectContains_integral : ∀ (r : Rect) (i j : Int),
    rectContains r ⟨(i : ℚ), (j : ℚ)⟩ = rectRule r ⟨(i : ℚ), (j : ℚ)⟩
  descKeypoints : List KeyPoint → Mat → String → Mat × FVal
  matchDescriptors : List KeyPoint → List KeyPoint → Mat → Mat →
    String → String → String → List DMatch × FVal

/-- The constants at the head of `trackFeatures` that configure a run: the
frame index range, the buffer capacity, the ROI switch and the ROI
rectangle. -/
structure Config where
  imgStartIndex : Int
  imgEndIndex : Int
  dataBufferSize : Int
  bFocusOnVehicle : Bool
  vehicleRect : Rect

/-- The values the source gives these constants. -/
def Config.source : Config := ⟨0, 9, 2, true, ⟨535, 180, 180, 150⟩⟩

/-- A call of one of the library routines, recorded with the loop index at
which it happens. -/
inductive Event where
  | imread (imgIndex fileNo : Nat)
  | detShiTomasi (imgIndex : Nat)
  | detHarris (imgIndex : Nat)
  | detModern (imgIndex : Nat) (detectorType : String)
  | descKeypoints (imgIndex : Nat) (keypoints : List KeyPoint) (descriptorType : String)
  | matchDescriptors (imgIndex : Nat) (kPtsSource kPtsRef : List KeyPoint)
      (descSource descRef : Mat) (descriptorType matcherType selectorType : String)
deriving DecidableEq

/-- The variables of `trackFeatures` that live across loop iterations, and
the record of library calls made so far. -/
structure RunState where
  dataBuffer : List DataFrame
  totalNumKeypoints : List FVal
  detectTimes : List FVal
  describeTimes : List FVal
  matchTimes : List FVal
  reducedNumKeypoints : List FVal
  meanValues : List FVal
  stddevValues : List FVal
  numMatches : List FVal
  calls : List Event

/-- The state before the first iteration. -/
def RunState.init : RunState := ⟨[], [], [], [], [], [], [], [], [], []⟩

/-! ## The loop body -/

/-- Conversion of an `int` to `size_t`, as the comparisons against
`size()` and the loop index perform it. -/
def toSizeT (i : Int) : Nat := (i % (2 ^ 64 : Int)).toNat

/-- The file index `imgStartIndex + imgIndex`. -/
def fileNumber (c : Config) (imgIndex : Nat) : Nat :=
  (toSizeT c.imgStartIndex + imgIndex) % 2 ^ 64

/-- The guarded `dataBuffer.erase(dataBuffer.begin())`. -/
def evictOldest (c : Config) (buf : List DataFrame) : List DataFrame :=
  if toSizeT c.dataBufferSize ≤ buf.length then buf.tail else buf

/-- Assignment through `dataBuffer.end() - 1`. -/
def updateLast (f : DataFrame → DataFrame) : List DataFrame → List DataFrame
  | [] => []
  | [x] => [f x]
  | x :: y :: r => x :: updateLast f (y :: r)

/-- The record at `dataBuffer.end() - 1`. -/
def lastFrame (buf : List DataFrame) : DataFrame :=
  buf.getD (buf.length - 1) DataFrame.empty

/-- The record at `dataBuffer.end() - 2`. -/
def secondLastFrame (buf : List DataFrame) : DataFrame :=
  buf.getD (buf.length - 2) DataFrame.empty

/-- LOAD IMAGE INTO BUFFER: read the image, evict when the buffer is full,
push the new record. -/
def loadImageIntoBuffer (c : Config) (p : Providers) (st : RunState) (imgIndex : Nat) :
    RunState :=
  let img := p.imread (fileNumber c imgIndex)
  let imgGray := p.cvtColor img
  let buf := evictOldest c st.dataBuffer
  let frame : DataFrame := { DataFrame.empty with cameraImg := imgGray }
  { st with
    dataBuffer := buf ++ [frame]
    calls := st.calls ++ [Event.imread imgIndex (fileNumber c imgIndex)] }

/-- The choice of the detection routine by `detectorType`. -/
def detectKeypoints (p : Providers) (detectorType : String) (imgGray : Mat) (bVis : Bool) :
    List KeyPoint × FVal :=
  if detectorType = "SHITOMASI" then p.detKeypointsShiTomasi imgGray bVis
  else if detectorType = "HARRIS" then p.detKeypointsHarris imgGray bVis
  else p.detKeypointsModern imgGray detectorType bVis

/-- The call record of `detectKeypoints`. -/
def detectEvent (detectorType : String) (imgIndex : Nat) : Event :=
  if detectorType = "SHITOMASI" then Event.detShiTomasi imgIndex
  else if detectorType = "HARRIS" then Event.detHarris imgIndex
  else Event.detModern imgIndex detectorType

/-- The loop that fills `focusedKeypoints`. -/
def focusLoop (p : Providers) (vehicleRect : Rect) (keypoints : List KeyPoint) :
    List KeyPoint :=
  keypoints.foldl
    (fun focusedKeypoints keypoint =>
      if p.rectContains vehicleRect keypoint.pt then focusedKeypoints ++ [keypoint]
      else focusedKeypoints)
    []

/-- The keypoints after `keypoints = focusedKeypoints`: the list the loop
filled when `bFocusOnVehicle` holds, and the still empty list otherwise. -/
def focusOnVehicle (c : Config) (p : Providers) (keypoints : List KeyPoint) : List KeyPoint :=
  let focusedKeypoints := if c.bFocusOnVehicle then focusLoop p c.vehicleRect keypoints else []
  focusedKeypoints

/-- The value `mean` of the loop body. -/
def sizeMean (keypoints : List KeyPoint) : FVal :=
  FVal.divCount (keypoints.foldl (fun a kp => FVal.add a (FVal.num kp.size)) (FVal.num 0))
    keypoints.length

/-- The value `variance` of the loop body. -/
def sizeVariance (keypoints : List KeyPoint) : FVal :=
  let mean := sizeMean keypoints
  FVal.divCount
    (keypoints.foldl (fun a kp => FVal.add a (FVal.sq (FVal.sub (FVal.num kp.size) mean)))
      (FVal.num 0))
    keypoints.length

/-- DETECT IMAGE KEYPOINTS up to the store of the keypoints in the newest
record: detection, ROI restriction, size statistics.  (`bLimitKpts` is
`false` in the source and its branch is left out.) -/
def detectStage (c : Config) (p : Providers) (detectorType : String) (bVis : Bool)
    (imgGray : Mat) (st : RunState) (imgIndex : Nat) : RunState :=
  let det := detectKeypoints p detectorType imgGray bVis
  let keypoints := focusOnVehicle c p det.1
  { st with
    totalNumKeypoints := st.totalNumKeypoints ++ [FVal.ofNat det.1.length]
    detectTimes := st.detectTimes ++ [det.2]
    reducedNumKeypoints := st.reducedNumKeypoints ++ [FVal.ofNat keypoints.length]
    meanValues := st.meanValues ++ [sizeMean keypoints]
    stddevValues := st.stddevValues ++ [sizeVariance keypoints]
    dataBuffer := updateLast (fun f => { f with keypoints := keypoints }) st.dataBuffer
    calls := st.calls ++ [detectEvent detectorType imgIndex] }

/-- EXTRACT KEYPOINT DESCRIPTORS. -/
def describeStage (p : Providers) (descriptorType : String) (st : RunState) (imgIndex : Nat) :
    RunState :=
  let cur := lastFrame st.dataBuffer
  let dsc := p.descKeypoints cur.keypoints cur.cameraImg descriptorType
  { st with
    describeTimes := st.describeTimes ++ [dsc.2]
    dataBuffer := updateLast (fun f => { f with descriptors := dsc.1 }) st.dataBuffer
    calls := st.calls ++ [Event.descKeypoints imgIndex cur.keypoints descriptorType] }

/-- The three strings handed to `matchDescriptors`: `descriptorType_`,
`matcherType` and `selectorType`. -/
def matchPolicy (descriptorType : String) : String × String × String :=
  let matcherType := "MAT_BF"
  let descriptorType_ := if descriptorType = "SIFT" then "DES_HOG" else "DES_BINARY"
  let selectorType := "SEL_KNN"
  (descriptorType_, matcherType, selectorType)

/-- MATCH KEYPOINT DESCRIPTORS, under the guard `dataBuffer.size() > 1`. -/
def matchStage (p : Providers) (descriptorType : String) (st : RunState) (imgIndex : Nat) :
    RunState :=
  if 1 < st.dataBuffer.length then
    let prev := secondLastFrame st.dataBuffer
    let cur := lastFrame st.dataBuffer
    let pol := matchPolicy descriptorType
    let m := p.matchDescriptors prev.keypoints cur.keypoints prev.descriptors cur.descriptors
      pol.1 pol.2.1 pol.2.2
    { st with
      dataBuffer := updateLast (fun f => { f with kptMatches := m.1 }) st.dataBuffer
      numMatches := st.numMatches ++ [FVal.ofNat m.1.length]
      matchTimes := st.matchTimes ++ [m.2]
      calls := st.calls ++ [Event.matchDescriptors imgIndex prev.keypoints cur.keypoints
        prev.descriptors cur.descriptors pol.1 pol.2.1 pol.2.2] }
  else st

/-- One iteration of the main loop. -/
def processFrame (c : Config) (p : Providers) (detectorType descriptorType : String)
    (bVis : Bool) (st : RunState) (imgIndex : Nat) : RunState :=
  let imgGray := p.cvtColor (p.imread (fileNumber c imgIndex))
  let st1 := loadImageIntoBuffer c p st imgIndex
  let st2 := detectStage c p detectorType bVis imgGray st1 imgIndex
  let st3 := describeStage p descriptorType st2 imgIndex
  matchStage p descriptorType st3 imgIndex

/-- The state after the iterations `imgIndex = 0, ..., n - 1`. -/
def runFrames (c : Config) (p : Providers) (detectorType descriptorType : String)
    (bVis : Bool) (n : Nat) : RunState :=
  (List.range n).foldl (processFrame c p detectorType descriptorType bVis) RunState.init

/-- The number of iterations of `for (size_t imgIndex = 0; imgIndex <=
imgEndIndex - imgStartIndex; imgIndex++)`: the bound is converted to
`size_t`, the body runs for every index up to it, and with the largest
`size_t` as bound the loop has no last iteration. -/
def frameCount (c : Config) : Option Nat :=
  let bound := toSizeT (c.imgEndIndex - c.imgStartIndex)
  if bound + 1 < 2 ^ 64 then some (bound + 1) else none

/-! ## Reports -/

/-- A piece of console output: text or a printed float. -/
inductive Tok where
  | text (s : String)
  | val (v : FVal)
deriving DecidableEq

/-- The lambda `printStats`: each value, then `sum / 10`.  The result is
the output and the final `sum`. -/
def printStatsLoop (stats : List FVal) : List Tok × FVal :=
  stats.foldl
    (fun acc n => (acc.1 ++ [Tok.val n, Tok.text " | "], FVal.add acc.2 n))
    ([], FVal.num 0)

/-- The output of the lambda `printStats`. -/
def printStats (stats : List FVal) : List Tok :=
  let r := printStatsLoop stats
  r.1 ++ [Tok.val (FVal.divCount r.2 10), Tok.text " | \n"]

/-- The lambda `avgStats`. -/
def avgStats (stats : List FVal) : FVal :=
  FVal.divCount (stats.foldl (fun sum n => FVal.add sum n) (FVal.num 0)) stats.length

/-- The block under `printDetectorComparison`. -/
def detectorComparison (detectorType : String) (st : RunState) : List Tok :=
  [Tok.text "| ", Tok.text detectorType, Tok.text " | # keypoints | "]
    ++ printStats st.totalNumKeypoints
    ++ [Tok.text "| | Time [ms] | "] ++ printStats st.detectTimes
    ++ [Tok.text "| | # selected keypoints | "] ++ printStats st.reducedNumKeypoints
    ++ [Tok.text "| | avg. keypoint size | "] ++ printStats st.meanValues
    ++ [Tok.text "| | keypoint size std dev | "] ++ printStats st.stddevValues

/-- The block under `printDetectorDescriptorComparison`. -/
def detectorDescriptorComparison (detectorType descriptorType : String) (st : RunState) :
    List Tok :=
  let avgDetectTimes := avgStats st.detectTimes
  let avgDescribeTimes := avgStats st.describeTimes
  let avgMatchTimes := avgStats st.matchTimes
  [Tok.text "| ", Tok.text detectorType, Tok.text " | ", Tok.text descriptorType,
    Tok.text " | ", Tok.val (avgStats st.numMatches), Tok.text " | ",
    Tok.val avgDetectTimes, Tok.text " | ", Tok.val avgDescribeTimes, Tok.text " | ",
    Tok.val avgMatchTimes, Tok.text " | ",
    Tok.val (FVal.add (FVal.add avgDetectTimes avgDescribeTimes) avgMatchTimes),
    Tok.text " | \n"]

/-- The console output after the loop. -/
def report (detectorType descriptorType : String)
    (printDetectorComparison printDetectorDescriptorComparison : Bool) (st : RunState) :
    List Tok :=
  (if printDetectorComparison then detectorComparison detectorType st else [])
    ++ (if printDetectorComparison && printDetectorDescriptorComparison
        then [Tok.text "\n\n"] else [])
    ++ (if printDetectorDescriptorComparison
        then detectorDescriptorComparison detectorType descriptorType st else [])

/-- The function `trackFeatures`: the final state and the console output,
or `none` when the loop has no last iteration. -/
def trackFeatures (c : Config) (p : Providers) (detectorType descriptorType : String)
    (bVis printDetectorComparison printDetectorDescriptorComparison : Bool) :
    Option (RunState × List Tok) :=
  match frameCount c with
  | none => none
  | some n =>
    let st := runFrames c p detectorType descriptorType bVis n
    some (st, report detectorType descriptorType printDetectorComparison
      printDetectorDescriptorComparison st)

/-! ## Closed forms of a run

What one iteration leaves behind depends on the earlier iterations only
through the record that precedes the new one in the buffer.  The following
definitions describe each frame on its own. -/

/-- The largest number of records the buffer reaches: eviction happens once
`toSizeT dataBufferSize` records are held, and a push follows. -/
def capacity (c : Config) : Nat := max 1 (toSizeT c.dataBufferSize)

/-- The grayscale image of iteration `k`. -/
def frameImage (c : Config) (p : Providers) (k : Nat) : Mat :=
  p.cvtColor (p.imread (fileNumber c k))

/-- The keypoints detected in iteration `k`, with the elapsed time. -/
def detected (c : Config) (p : Providers) (detectorType : String) (bVis : Bool) (k : Nat) :
    List KeyPoint × FVal :=
  detectKeypoints p detectorType (frameImage c p k) bVis

/-- The record of iteration `k` once its descriptors are stored. -/
def describedRecord (c : Config) (p : Providers) (detectorType descriptorType : String)
    (bVis : Bool) (k : Nat) : DataFrame :=
  let keypoints := focusOnVehicle c p (detected c p detectorType bVis k).1
  { cameraImg := frameImage c p k
    keypoints := keypoints
    descriptors := (p.descKeypoints keypoints (frameImage c p k) descriptorType).1
    kptMatches := [] }

/-- Whether iteration `k` finds a second record in the buffer. -/
def hasPredecessor (c : Config) (k : Nat) : Bool :=
  decide (1 ≤ k ∧ 2 ≤ toSizeT c.dataBufferSize)

/-- The result of matching frame `k - 1` against frame `k`. -/
def matchResult (c : Config) (p : Providers) (detectorType descriptorType : String)
    (bVis : Bool) (k : Nat) : List DMatch × FVal :=
  let prev := describedRecord c p detectorType descriptorType bVis (k - 1)
  let cur := describedRecord c p detectorType descriptorType bVis k
  p.matchDescriptors prev.keypoints cur.keypoints prev.descriptors cur.descriptors
    (matchPolicy descriptorType).1 (matchPolicy descriptorType).2.1
    (matchPolicy descriptorType).2.2

/-- The record of iteration `k` at the end of the iteration. -/
def completedRecord (c : Config) (p : Providers) (detectorType descriptorType : String)
    (bVis : Bool) (k : Nat) : DataFrame :=
  if hasPredecessor c k then
    { describedRecord c p detectorType descriptorType bVis k with
      kptMatches := (matchResult c p detectorType descriptorType bVis k).1 }
  else describedRecord c p detectorType descriptorType bVis k

/-- The library calls of iteration `k`. -/
def frameCalls (c : Config) (p : Providers) (detectorType descriptorType : String)
    (bVis : Bool) (k : Nat) : List Event :=
  let prev := describedRecord c p detectorType descriptorType bVis (k - 1)
  let cur := describedRecord c p detectorType descriptorType bVis k
  [Event.imread k (fileNumber c k), detectEvent detectorType k,
    Event.descKeypoints k cur.keypoints descriptorType]
  ++ (if hasPredecessor c k then
        [Event.matchDescriptors k prev.keypoints cur.keypoints prev.descriptors
          cur.descriptors (matchPolicy descriptorType).1 (matchPolicy descriptorType).2.1
          (matchPolicy descriptorType).2.2]
      else [])

/-- The record of frame `k` as it stands in the buffer when iteration `k`
is over. -/
def frameRecord (c : Config) (p : Providers) (detectorType descriptorType : String)
    (bVis : Bool) (k : Nat) : DataFrame :=
  lastFrame (runFrames c p detectorType descriptorType bVis (k + 1)).dataBuffer

/-- The buffer at each point of iteration `k` where it is read or written:
on entry, after the eviction, after the push and after each later stage. -/
def bufferTrace (c : Config) (p : Providers) (detectorType descriptorType : String)
    (bVis : Bool) (k : Nat) : List (List DataFrame) :=
  let st := runFrames c p detectorType descriptorType bVis k
  let st1 := loadImageIntoBuffer c p st k
  let st2 := detectStage c p detectorType bVis (frameImage c p k) st1 k
  let st3 := describeStage p descriptorType st2 k
  let st4 := matchStage p descriptorType st3 k
  [st.dataBuffer, evictOldest c st.dataBuffer, st1.dataBuffer, st2.dataBuffer,
    st3.dataBuffer, st4.dataBuffer]

/-- The iterations of a run of `n` frames in which `matchDescriptors` is
called. -/
def matchedFrames (calls : List Event) : List Nat :=
  calls.filterMap fun e =>
    match e with
    | Event.matchDescriptors k _ _ _ _ _ _ _ => some k
    | _ => none

/-- The state after `n` iterations, field by field. -/
def closedState (c : Config) (p : Providers) (detectorType descriptorType : String)
    (bVis : Bool) (n : Nat) : RunState :=
  let D := describedRecord c p detectorType descriptorType bVis
  let matched := (List.range n).filter (hasPredecessor c)
  { dataBuffer :=
      ((List.range n).map (completedRecord c p detectorType descriptorType bVis)).drop
        (n - capacity c)
    totalNumKeypoints :=
      (List.range n).map fun k => FVal.ofNat (detected c p detectorType bVis k).1.length
    detectTimes := (List.range n).map fun k => (detected c p detectorType bVis k).2
    describeTimes := (List.range n).map fun k =>
      (p.descKeypoints (D k).keypoints (frameImage c p k) descriptorType).2
    matchTimes :=
      matched.map fun k => (matchResult c p detectorType descriptorType bVis k).2
    reducedNumKeypoints := (List.range n).map fun k => FVal.ofNat (D k).keypoints.length
    meanValues := (List.range n).map fun k => sizeMean (D k).keypoints
    stddevValues := (List.range n).map fun k => sizeVariance (D k).keypoints
    numMatches :=
      matched.map fun k =>
        FVal.ofNat (matchResult c p detectorType descriptorType bVis k).1.length
    calls := (List.range n).flatMap (frameCalls c p detectorType descriptorType bVis) }

/-- The frames of a run of `n` iterations in which `matchDescriptors` is not
called. -/
def skippedFrames (n : Nat) (calls : List Event) : List Nat :=
  (List.range n).filter fun k => decide (k ∉ matchedFrames calls)

/-! ## Sample library routines, for evaluation -/

/-- A keypoint at `(x, y)` of the given size. -/
def mkKeyPoint (x y size : ℚ) : KeyPoint := ⟨⟨x, y⟩, size, 0, 0, 0, 0⟩

/-- Sample routines: every image is a single pixel holding its file index;
the modern detectors find three keypoints, two of them inside the source
rectangle; Shi-Tomasi finds one inside; Harris finds one, outside; a
descriptor row holds the size of its keypoint; every pair of frames yields
one match. -/
def sampleProviders : Providers where
  imread n := [[(n : ℚ)]]
  cvtColor m := m
  detKeypointsShiTomasi _ _ := ([mkKeyPoint 600 200 5], FVal.num 1)
  detKeypointsHarris _ _ := ([mkKeyPoint 10 10 3], FVal.num 1)
  detKeypointsModern _ _ _ :=
    ([mkKeyPoint 600 200 4, mkKeyPoint 10 10 7, mkKeyPoint 535 180 2], FVal.num 2)
  rectContains := rectRule
  rectContains_integral _ _ _ := rfl
  descKeypoints kps _ _ := (kps.map fun kp => [kp.size], FVal.num 3)
  matchDescriptors _ _ _ _ _ _ _ := ([⟨0, 0, 0, 1⟩], FVal.num 4)

/-! ## Basic lemmas -/

theorem focusLoop_aux (p : Providers) (r : Rect) (kps acc : List KeyPoint) :
    kps.foldl
      (fun focusedKeypoints keypoint =>
        if p.rectContains r keypoint.pt then focusedKeypoints ++ [keypoint]
        else focusedKeypoints) acc
      = acc ++ kps.filter (fun kp => p.rectContains r kp.pt) := by
  induction kps generalizing acc with
  | nil => simp
  | cons kp rest ih =>
    simp only [List.foldl_cons, List.filter_cons]
    by_cases h : p.rectContains r kp.pt = true
    · simp [h, ih]
    · simp [h, ih]

theorem focusLoop_eq_filter (p : Providers) (r : Rect) (kps : List KeyPoint) :
    focusLoop p r kps = kps.filter (fun kp => p.rectContains r kp.pt) := by
  simp [focusLoop, focusLoop_aux]

theorem updateLast_append_singleton (f : DataFrame → DataFrame) (l : List DataFrame)
    (x : DataFrame) : updateLast f (l ++ [x]) = l ++ [f x] := by
  induction l with
  | nil => rfl
  | cons a r ih =>
    cases r with
    | nil => rfl
    | cons b t =>
      have : updateLast f (a :: b :: t ++ [x]) = a :: updateLast f (b :: t ++ [x]) := rfl
      rw [this, ih]; rfl

theorem updateLast_length (f : DataFrame → DataFrame) (l : List DataFrame) :
    (updateLast f l).length = l.length := by
  induction l with
  | nil => rfl
  | cons a r ih =>
    cases r with
    | nil => rfl
    | cons b t =>
      have : updateLast f (a :: b :: t) = a :: updateLast f (b :: t) := rfl
      rw [this, List.length_cons, ih]; rfl

theorem lastFrame_append_singleton (l : List DataFrame) (x : DataFrame) :
    lastFrame (l ++ [x]) = x := by
  simp [lastFrame, List.getD_eq_getElem?_getD]

theorem secondLastFrame_append_singleton (l : List DataFrame) (x : DataFrame)
    (h : l ≠ []) : secondLastFrame (l ++ [x]) = lastFrame l := by
  have hl : 0 < l.length := List.length_pos.mpr h
  have h1 : l.length + 1 - 2 = l.length - 1 := by omega
  have h2 : l.length - 1 < l.length := by omega
  simp [secondLastFrame, lastFrame, List.getD_eq_getElem?_getD, h1,
    List.getElem?_append_left h2]

theorem runFrames_zero (c : Config) (p : Providers) (d e : String) (bVis : Bool) :
    runFrames c p d e bVis 0 = RunState.init := rfl

theorem runFrames_succ (c : Config) (p : Providers) (d e : String) (bVis : Bool) (n : Nat) :
    runFrames c p d e bVis (n + 1)
      = processFrame c p d e bVis (runFrames c p d e bVis n) n := by
  simp [runFrames, List.range_succ, List.foldl_append]

/-! ## One iteration, in closed form -/

theorem processFrame_of_evict_nil (c : Config) (p : Providers) (d e : String) (bVis : Bool)
    (st : RunState) (k : Nat) (h : evictOldest c st.dataBuffer = []) :
    processFrame c p d e bVis st k =
      { dataBuffer := [describedRecord c p d e bVis k]
        totalNumKeypoints :=
          st.totalNumKeypoints ++ [FVal.ofNat (detected c p d bVis k).1.length]
        detectTimes := st.detectTimes ++ [(detected c p d bVis k).2]
        describeTimes := st.describeTimes ++
          [(p.descKeypoints (describedRecord c p d e bVis k).keypoints (frameImage c p k) e).2]
        matchTimes := st.matchTimes
        reducedNumKeypoints := st.reducedNumKeypoints ++
          [FVal.ofNat (describedRecord c p d e bVis k).keypoints.length]
        meanValues := st.meanValues ++ [sizeMean (describedRecord c p d e bVis k).keypoints]
        stddevValues :=
          st.stddevValues ++ [sizeVariance (describedRecord c p d e bVis k).keypoints]
        numMatches := st.numMatches
        calls := st.calls ++ [Event.imread k (fileNumber c k), detectEvent d k,
          Event.descKeypoints k (describedRecord c p d e bVis k).keypoints e] } := by
  simp [processFrame, loadImageIntoBuffer, detectStage, describeStage, matchStage, h,
    updateLast, lastFrame, describedRecord, detected, frameImage, DataFrame.empty]

theorem processFrame_of_evict_ne_nil (c : Config) (p : Providers) (d e : String) (bVis : Bool)
    (st : RunState) (k : Nat) (h : evictOldest c st.dataBuffer ≠ []) :
    processFrame c p d e bVis st k =
      { dataBuffer := evictOldest c st.dataBuffer ++
          [{ describedRecord c p d e bVis k with
             kptMatches := (p.matchDescriptors
               (lastFrame (evictOldest c st.dataBuffer)).keypoints
               (describedRecord c p d e bVis k).keypoints
               (lastFrame (evictOldest c st.dataBuffer)).descriptors
               (describedRecord c p d e bVis k).descriptors
               (matchPolicy e).1 (matchPolicy e).2.1 (matchPolicy e).2.2).1 }]
        totalNumKeypoints :=
          st.totalNumKeypoints ++ [FVal.ofNat (detected c p d bVis k).1.length]
        detectTimes := st.detectTimes ++ [(detected c p d bVis k).2]
        describeTimes := st.describeTimes ++
          [(p.descKeypoints (describedRecord c p d e bVis k).keypoints (frameImage c p k) e).2]
        matchTimes := st.matchTimes ++ [(p.matchDescriptors
               (lastFrame (evictOldest c st.dataBuffer)).keypoints
               (describedRecord c p d e bVis k).keypoints
               (lastFrame (evictOldest c st.dataBuffer)).descriptors
               (describedRecord c p d e bVis k).descriptors
               (matchPolicy e).1 (matchPolicy e).2.1 (matchPolicy e).2.2).2]
        reducedNumKeypoints := st.reducedNumKeypoints ++
          [FVal.ofNat (describedRecord c p d e bVis k).keypoints.length]
        meanValues := st.meanValues ++ [sizeMean (describedRecord c p d e bVis k).keypoints]
        stddevValues :=
          st.stddevValues ++ [sizeVariance (describedRecord c p d e bVis k).keypoints]
        numMatches := st.numMatches ++ [FVal.ofNat (p.matchDescriptors
               (lastFrame (evictOldest c st.dataBuffer)).keypoints
               (describedRecord c p d e bVis k).keypoints
               (lastFrame (evictOldest c st.dataBuffer)).descriptors
               (describedRecord c p d e bVis k).descriptors
               (matchPolicy e).1 (matchPolicy e).2.1 (matchPolicy e).2.2).1.length]
        calls := st.calls ++ [Event.imread k (fileNumber c k), detectEvent d k,
          Event.descKeypoints k (describedRecord c p d e bVis k).keypoints e,
          Event.matchDescriptors k
               (lastFrame (evictOldest c st.dataBuffer)).keypoints
               (describedRecord c p d e bVis k).keypoints
               (lastFrame (evictOldest c st.dataBuffer)).descriptors
               (describedRecord c p d e bVis k).descriptors
               (matchPolicy e).1 (matchPolicy e).2.1 (matchPolicy e).2.2] } := by
  have hpos : 0 < (evictOldest c st.dataBuffer).length := List.length_pos.mpr h
  simp [processFrame, loadImageIntoBuffer, detectStage, describeStage, matchStage,
    updateLast_append_singleton, lastFrame_append_singleton,
    secondLastFrame_append_singleton _ _ h, hpos, describedRecord, detected, frameImage,
    DataFrame.empty]

/-! ## The whole run, in closed form -/

theorem capacity_pos (c : Config) : 1 ≤ capacity c := by
  simp [capacity]

theorem hasPredecessor_iff (c : Config) (k : Nat) :
    hasPredecessor c k = true ↔ 1 ≤ k ∧ 2 ≤ capacity c := by
  simp only [hasPredecessor, capacity, decide_eq_true_eq]
  omega

theorem evictOldest_drop (c : Config) (l : List DataFrame) :
    evictOldest c (l.drop (l.length - capacity c)) = l.drop (l.length + 1 - capacity c) := by
  unfold evictOldest capacity
  by_cases h : toSizeT c.dataBufferSize ≤ (l.drop (l.length - max 1 (toSizeT c.dataBufferSize))).length
  · rw [if_pos h, List.tail_drop]
    rw [List.length_drop] at h
    by_cases hn : l.length = 0
    · have : l = [] := List.length_eq_zero.mp hn
      subst this; simp
    · congr 1; omega
  · rw [if_neg h]
    rw [List.length_drop] at h
    congr 1; omega

theorem completedRecord_keypoints (c : Config) (p : Providers) (d e : String) (bVis : Bool)
    (k : Nat) :
    (completedRecord c p d e bVis k).keypoints = (describedRecord c p d e bVis k).keypoints := by
  unfold completedRecord; split <;> rfl

theorem completedRecord_descriptors (c : Config) (p : Providers) (d e : String) (bVis : Bool)
    (k : Nat) :
    (completedRecord c p d e bVis k).descriptors
      = (describedRecord c p d e bVis k).descriptors := by
  unfold completedRecord; split <;> rfl

theorem completedRecord_cameraImg (c : Config) (p : Providers) (d e : String) (bVis : Bool)
    (k : Nat) : (completedRecord c p d e bVis k).cameraImg = frameImage c p k := by
  unfold completedRecord; split <;> rfl

theorem lastFrame_drop_map_range (f : Nat → DataFrame) (n m : Nat) (hm : m < n) :
    lastFrame (((List.range n).map f).drop m) = f (n - 1) := by
  have h1 : n - m - 1 < n - m := by omega
  have h2 : m + (n - m - 1) = n - 1 := by omega
  have h3 : n - 1 < n := by omega
  simp [lastFrame, List.getD_eq_getElem?_getD, List.getElem?_drop, h2, h3,
    List.getElem?_range]

theorem closedState_succ (c : Config) (p : Providers) (d e : String) (bVis : Bool) (n : Nat) :
    processFrame c p d e bVis (closedState c p d e bVis n) n
      = closedState c p d e bVis (n + 1) := by
  have hev : evictOldest c (closedState c p d e bVis n).dataBuffer
      = ((List.range n).map (completedRecord c p d e bVis)).drop (n + 1 - capacity c) := by
    have := evictOldest_drop c ((List.range n).map (completedRecord c p d e bVis))
    simpa [closedState] using this
  have hcap := capacity_pos c
  by_cases hp : hasPredecessor c n = true
  · have hp2 := (hasPredecessor_iff c n).mp hp
    have hne : evictOldest c (closedState c p d e bVis n).dataBuffer ≠ [] := by
      rw [hev]
      intro h0
      have := congrArg List.length h0
      simp at this
      omega
    rw [processFrame_of_evict_ne_nil c p d e bVis _ n hne, hev,
      lastFrame_drop_map_range _ n _ (by omega),
      completedRecord_keypoints, completedRecord_descriptors]
    have hdrop : n + 1 - capacity c ≤ ((List.range n).map (completedRecord c p d e bVis)).length := by
      simp; omega
    simp only [closedState, List.range_succ, List.map_append, List.filter_append,
      List.map_cons, List.map_nil, List.filter_cons, List.filter_nil, hp, if_true,
      List.flatMap_append, List.flatMap_cons, List.flatMap_nil, List.append_nil,
      List.drop_append_of_le_length hdrop, frameCalls, matchResult, completedRecord,
      List.cons_append, List.nil_append, List.append_assoc]
  · have hnil : evictOldest c (closedState c p d e bVis n).dataBuffer = [] := by
      rw [hev]
      have hp2 : ¬ (1 ≤ n ∧ 2 ≤ capacity c) := fun h => hp ((hasPredecessor_iff c n).mpr h)
      apply List.drop_eq_nil_of_le
      simp; omega
    have hp3 : hasPredecessor c n = false := by simpa using hp
    have hp2 : ¬ (1 ≤ n ∧ 2 ≤ capacity c) := fun h => hp ((hasPredecessor_iff c n).mpr h)
    have hdrop : ((List.range n).map (completedRecord c p d e bVis)).drop (n + 1 - capacity c)
        = [] := by
      apply List.drop_eq_nil_of_le
      simp; omega
    have hdrop2 : n + 1 - capacity c ≤ ((List.range n).map (completedRecord c p d e bVis)).length := by
      simp; omega
    rw [processFrame_of_evict_nil c p d e bVis _ n hnil]
    simp only [closedState, List.range_succ, List.map_append, List.filter_append,
      List.map_cons, List.map_nil, List.filter_cons, List.filter_nil, hp3,
      List.flatMap_append, List.flatMap_cons, List.flatMap_nil, List.append_nil,
      List.drop_append_of_le_length hdrop2, hdrop, frameCalls, completedRecord,
      List.cons_append, List.nil_append, List.append_assoc, Bool.false_eq_true, if_false]

theorem runFrames_eq_closedState (c : Config) (p : Providers) (d e : String) (bVis : Bool)
    (n : Nat) : runFrames c p d e bVis n = closedState c p d e bVis n := by
  induction n with
  | zero => simp [runFrames_zero, closedState, RunState.init]
  | succ n ih => rw [runFrames_succ, ih, closedState_succ]

theorem drop_map_range (f : Nat → DataFrame) (n m : Nat) :
    ((List.range n).map f).drop m = (List.range' m (n - m)).map f := by
  apply List.ext_getElem?
  intro i
  simp only [List.getElem?_drop, List.getElem?_map, List.getElem?_range']
  by_cases h : i < n - m
  · have h2 : m + i < n := by omega
    simp [List.getElem?_range, h, h2, List.getElem?_range']
  · have h2 : ¬ m + i < n := by omega
    have h3 : n ≤ m + i := by omega
    have h4 : n - m ≤ i := by omega
    rw [List.getElem?_eq_none (by simpa using h3), List.getElem?_eq_none (by simpa using h4)]

theorem frameRecord_eq_completedRecord (c : Config) (p : Providers) (d e : String)
    (bVis : Bool) (k : Nat) :
    frameRecord c p d e bVis k = completedRecord c p d e bVis k := by
  have hcap := capacity_pos c
  unfold frameRecord
  rw [runFrames_eq_closedState]
  simp only [closedState]
  rw [lastFrame_drop_map_range _ (k + 1) _ (by omega)]
  simp

theorem frameRecord_fun (c : Config) (p : Providers) (d e : String) (bVis : Bool) :
    frameRecord c p d e bVis = completedRecord c p d e bVis :=
  funext (frameRecord_eq_completedRecord c p d e bVis)

theorem runFrames_dataBuffer (c : Config) (p : Providers) (d e : String) (bVis : Bool)
    (n : Nat) :
    (runFrames c p d e bVis n).dataBuffer
      = (List.range' (n - capacity c) (n - (n - capacity c))).map
          (frameRecord c p d e bVis) := by
  rw [runFrames_eq_closedState, frameRecord_fun]
  simp only [closedState]
  exact drop_map_range _ _ _

theorem evictOldest_runFrames (c : Config) (p : Providers) (d e : String) (bVis : Bool)
    (n : Nat) :
    evictOldest c (runFrames c p d e bVis n).dataBuffer
      = (List.range' (n + 1 - capacity c) (n - (n + 1 - capacity c))).map
          (frameRecord c p d e bVis) := by
  rw [runFrames_eq_closedState, frameRecord_fun]
  have := evictOldest_drop c ((List.range n).map (completedRecord c p d e bVis))
  simp only [List.length_map, List.length_range] at this
  simp only [closedState]
  rw [this]
  exact drop_map_range _ _ _

theorem capacity_eq_of_int (c : Config) (B : Nat) (hB : 1 ≤ B) (hint : B < 2 ^ 31)
    (hc : c.dataBufferSize = (B : Int)) : capacity c = B := by
  have h1 : toSizeT c.dataBufferSize = B := by
    unfold toSizeT
    rw [hc]
    have : ((B : Int) % (2 ^ 64 : Int)) = (B : Int) := by
      apply Int.emod_eq_of_lt <;> omega
    rw [this]; simp
  simp [capacity, h1, hB]

theorem detectStage_length (c : Config) (p : Providers) (d : String) (bVis : Bool)
    (img : Mat) (st : RunState) (k : Nat) :
    (detectStage c p d bVis img st k).dataBuffer.length = st.dataBuffer.length := by
  simp [detectStage, updateLast_length]

theorem describeStage_length (p : Providers) (e : String) (st : RunState) (k : Nat) :
    (describeStage p e st k).dataBuffer.length = st.dataBuffer.length := by
  simp [describeStage, updateLast_length]

theorem matchStage_length (p : Providers) (e : String) (st : RunState) (k : Nat) :
    (matchStage p e st k).dataBuffer.length = st.dataBuffer.length := by
  unfold matchStage
  split
  · simp [updateLast_length]
  · rfl

theorem loadImageIntoBuffer_dataBuffer (c : Config) (p : Providers) (st : RunState)
    (k : Nat) :
    (loadImageIntoBuffer c p st k).dataBuffer
      = evictOldest c st.dataBuffer
          ++ [{ DataFrame.empty with cameraImg := frameImage c p k }] := by
  simp [loadImageIntoBuffer, frameImage]

theorem matchedFrames_append (l₁ l₂ : List Event) :
    matchedFrames (l₁ ++ l₂) = matchedFrames l₁ ++ matchedFrames l₂ := by
  simp [matchedFrames, List.filterMap_append]

theorem matchedFrames_detectEvent (d : String) (k : Nat) (l : List Event) :
    matchedFrames (detectEvent d k :: l) = matchedFrames l := by
  unfold detectEvent matchedFrames
  split_ifs <;> simp [List.filterMap_cons]

theorem matchedFrames_frameCalls (c : Config) (p : Providers) (d e : String) (bVis : Bool)
    (k : Nat) :
    matchedFrames (frameCalls c p d e bVis k) = if hasPredecessor c k then [k] else [] := by
  unfold frameCalls
  simp only [List.cons_append, List.nil_append]
  have h1 : ∀ (a b : Nat) (l : List Event),
      matchedFrames (Event.imread a b :: l) = matchedFrames l := by
    intro a b l; simp [matchedFrames, List.filterMap_cons]
  have h2 : ∀ (a : Nat) (ks : List KeyPoint) (t : String) (l : List Event),
      matchedFrames (Event.descKeypoints a ks t :: l) = matchedFrames l := by
    intro a ks t l; simp [matchedFrames, List.filterMap_cons]
  rw [h1, matchedFrames_detectEvent, h2]
  split_ifs <;> simp [matchedFrames, List.filterMap_cons]

theorem matchedFrames_runFrames (c : Config) (p : Providers) (d e : String) (bVis : Bool)
    (n : Nat) :
    matchedFrames (runFrames c p d e bVis n).calls
      = (List.range n).filter (hasPredecessor c) := by
  rw [runFrames_eq_closedState]
  simp only [closedState]
  induction n with
  | zero => simp [matchedFrames]
  | succ n ih =>
    rw [List.range_succ, List.flatMap_append, matchedFrames_append, ih, List.filter_append]
    simp only [List.flatMap_cons, List.flatMap_nil, List.append_nil,
      matchedFrames_frameCalls, List.filter_cons, List.filter_nil]

theorem filter_one_le_range (n : Nat) :
    (List.range n).filter (fun k => decide (1 ≤ k)) = List.range' 1 (n - 1) := by
  induction n with
  | zero => rfl
  | succ n ih =>
    rw [List.range_succ, List.filter_append, ih]
    cases n with
    | zero => rfl
    | succ m =>
      have : decide (1 ≤ m + 1) = true := by simp
      simp only [List.filter_cons, List.filter_nil, this, if_true]
      have h2 : m + 1 + 1 - 1 = (m + 1 - 1) + 1 := by omega
      rw [h2, List.range'_concat]
      simp; omega

theorem frameCount_pos (c : Config) (N : Nat) (h : frameCount c = some N) : 1 ≤ N := by
  unfold frameCount at h
  simp only at h
  split_ifs at h
  simp only [Option.some.injEq] at h
  omega

theorem secondLastFrame_drop_map_range (f : Nat → DataFrame) (n m : Nat) (hm : m + 2 ≤ n) :
    secondLastFrame (((List.range n).map f).drop m) = f (n - 2) := by
  have h2 : m + (n - m - 2) = n - 2 := by omega
  have h3 : n - 2 < n := by omega
  simp [secondLastFrame, List.getD_eq_getElem?_getD, List.getElem?_drop, h2, h3,
    List.getElem?_range]

theorem processFrame_dropLast (c : Config) (p : Providers) (d e : String) (bVis : Bool)
    (st : RunState) (k : Nat) :
    (processFrame c p d e bVis st k).dataBuffer.dropLast = evictOldest c st.dataBuffer := by
  by_cases h : evictOldest c st.dataBuffer = []
  · rw [processFrame_of_evict_nil c p d e bVis st k h, h]; rfl
  · rw [processFrame_of_evict_ne_nil c p d e bVis st k h]
    simp

theorem mem_frameCalls_matchDescriptors (c : Config) (p : Providers) (d e : String)
    (bVis : Bool) (j k : Nat) (a1 a2 : List KeyPoint) (d1 d2 : Mat) (t1 t2 t3 : String)
    (h : Event.matchDescriptors k a1 a2 d1 d2 t1 t2 t3 ∈ frameCalls c p d e bVis j) :
    j = k ∧ hasPredecessor c k = true
      ∧ a1 = (describedRecord c p d e bVis (k - 1)).keypoints
      ∧ a2 = (describedRecord c p d e bVis k).keypoints
      ∧ d1 = (describedRecord c p d e bVis (k - 1)).descriptors
      ∧ d2 = (describedRecord c p d e bVis k).descriptors
      ∧ (t1, t2, t3) = matchPolicy e := by
  unfold frameCalls at h
  have hdet : Event.matchDescriptors k a1 a2 d1 d2 t1 t2 t3 ≠ detectEvent d j := by
    unfold detectEvent
    split_ifs <;> simp
  simp only [List.cons_append, List.nil_append, List.mem_cons] at h
  rcases h with h | h | h | h
  · simp at h
  · exact absurd h hdet
  · simp at h
  · by_cases hp : hasPredecessor c j = true
    · simp only [hp, if_true, List.mem_singleton, Event.matchDescriptors.injEq] at h
      obtain ⟨rfl, rfl, rfl, rfl, rfl, rfl, rfl, rfl⟩ := h
      exact ⟨rfl, hp, rfl, rfl, rfl, rfl, rfl⟩
    · simp [hp] at h

theorem sizeSum_fold (kps : List KeyPoint) (x : ℚ) :
    kps.foldl (fun a kp => FVal.add a (FVal.num kp.size)) (FVal.num x)
      = FVal.num (x + (kps.map fun kp => kp.size).sum) := by
  induction kps generalizing x with
  | nil => simp
  | cons kp rest ih =>
    have h1 : FVal.add (FVal.num x) (FVal.num kp.size) = FVal.num (x + kp.size) := rfl
    rw [List.foldl_cons, h1, ih, List.map_cons, List.sum_cons, add_assoc]

theorem varSum_fold (kps : List KeyPoint) (m x : ℚ) :
    kps.foldl (fun a kp => FVal.add a (FVal.sq (FVal.sub (FVal.num kp.size) (FVal.num m))))
        (FVal.num x)
      = FVal.num (x + (kps.map fun kp => (kp.size - m) ^ 2).sum) := by
  induction kps generalizing x with
  | nil => simp
  | cons kp rest ih =>
    have h1 : FVal.add (FVal.num x) (FVal.sq (FVal.sub (FVal.num kp.size) (FVal.num m)))
        = FVal.num (x + (kp.size - m) ^ 2) := by
      simp [FVal.add, FVal.sub, FVal.sq, pow_two]
    rw [List.foldl_cons, h1, ih, List.map_cons, List.sum_cons, add_assoc]

theorem detectStage_statistics (c : Config) (p : Providers) (d : String) (bVis : Bool)
    (img : Mat) (st : RunState) (k : Nat) :
    (detectStage c p d bVis img st k).reducedNumKeypoints
        = st.reducedNumKeypoints
          ++ [FVal.ofNat (focusOnVehicle c p (detectKeypoints p d img bVis).1).length]
    ∧ (detectStage c p d bVis img st k).meanValues
        = st.meanValues ++ [sizeMean (focusOnVehicle c p (detectKeypoints p d img bVis).1)]
    ∧ (detectStage c p d bVis img st k).stddevValues
        = st.stddevValues
          ++ [sizeVariance (focusOnVehicle c p (detectKeypoints p d img bVis).1)] :=
  ⟨rfl, rfl, rfl⟩

theorem processFrame_statistics (c : Config) (p : Providers) (d e : String) (bVis : Bool)
    (st : RunState) (k : Nat) :
    (processFrame c p d e bVis st k).reducedNumKeypoints
        = st.reducedNumKeypoints
          ++ [FVal.ofNat (focusOnVehicle c p (detected c p d bVis k).1).length]
    ∧ (processFrame c p d e bVis st k).meanValues
        = st.meanValues ++ [sizeMean (focusOnVehicle c p (detected c p d bVis k).1)]
    ∧ (processFrame c p d e bVis st k).stddevValues
        = st.stddevValues ++ [sizeVariance (focusOnVehicle c p (detected c p d bVis k).1)]
    ∧ Event.descKeypoints k (focusOnVehicle c p (detected c p d bVis k).1) e
        ∈ (processFrame c p d e bVis st k).calls := by
  by_cases h : evictOldest c st.dataBuffer = []
  · rw [processFrame_of_evict_nil c p d e bVis st k h]
    simp [describedRecord]
  · rw [processFrame_of_evict_ne_nil c p d e bVis st k h]
    simp [describedRecord]

theorem focusOnVehicle_disabled (c : Config) (p : Providers) (kps : List KeyPoint)
    (h : c.bFocusOnVehicle = false) : focusOnVehicle c p kps = [] := by
  simp [focusOnVehicle, h]

theorem runFrames_calls_take (c : Config) (p : Providers) (d e : String) (bVis : Bool)
    (m : Nat) :
    (runFrames c p d e bVis (m + 1)).calls.take 3
      = [Event.imread 0 (fileNumber c 0), detectEvent d 0,
          Event.descKeypoints 0 (focusOnVehicle c p (detected c p d bVis 0).1) e] := by
  rw [runFrames_eq_closedState]
  have h0 : hasPredecessor c 0 = false := by simp [hasPredecessor]
  simp only [closedState, List.range_succ_eq_map, List.flatMap_cons, frameCalls, h0]
  simp [describedRecord]

/-! ## The claims -/

/-- C1: for every buffer capacity `B ≥ 1` and every iteration `k` of the main
loop, the buffer holds at most `B` records at each point of the iteration;
right after the push of frame `k` it holds `min (k+1) B` records, namely the
completed records of the preceding frames followed by the new one; and at
the end of the iteration it holds exactly the records of the `min (k+1) B`
most recent frames, oldest first. -/
theorem buffer_holds_most_recent_frames (c : Config) (p : Providers) (d e : String)
    (bVis : Bool) (B k : Nat) (hB : 1 ≤ B) (hint : B < 2 ^ 31)
    (hc : c.dataBufferSize = (B : Int)) :
    (∀ buf ∈ bufferTrace c p d e bVis k, buf.length ≤ B)
    ∧ (loadImageIntoBuffer c p (runFrames c p d e bVis k) k).dataBuffer
        = (List.range' (k + 1 - min (k + 1) B) (min (k + 1) B - 1)).map
            (frameRecord c p d e bVis)
          ++ [{ DataFrame.empty with cameraImg := frameImage c p k }]
    ∧ (loadImageIntoBuffer c p (runFrames c p d e bVis k) k).dataBuffer.length
        = min (k + 1) B
    ∧ (runFrames c p d e bVis (k + 1)).dataBuffer
        = (List.range' (k + 1 - min (k + 1) B) (min (k + 1) B)).map
            (frameRecord c p d e bVis)
    ∧ ∀ j, (frameRecord c p d e bVis j).cameraImg = frameImage c p j := by
  have hcap : capacity c = B := capacity_eq_of_int c B hB hint hc
  have hload : (loadImageIntoBuffer c p (runFrames c p d e bVis k) k).dataBuffer
        = (List.range' (k + 1 - min (k + 1) B) (min (k + 1) B - 1)).map
            (frameRecord c p d e bVis)
          ++ [{ DataFrame.empty with cameraImg := frameImage c p k }] := by
    rw [loadImageIntoBuffer_dataBuffer, evictOldest_runFrames, hcap]
    have h1 : k + 1 - B = k + 1 - min (k + 1) B := by omega
    have h2 : k - (k + 1 - B) = min (k + 1) B - 1 := by omega
    rw [h1, ← h1, h2]
  have hlen : (loadImageIntoBuffer c p (runFrames c p d e bVis k) k).dataBuffer.length
        = min (k + 1) B := by
    rw [hload]; simp; omega
  refine ⟨?_, hload, hlen, ?_, ?_⟩
  · intro buf hbuf
    simp only [bufferTrace, List.mem_cons, List.mem_singleton, List.not_mem_nil,
      or_false] at hbuf
    have h0 : (runFrames c p d e bVis k).dataBuffer.length ≤ B := by
      rw [runFrames_dataBuffer, hcap]; simp
      omega
    have h1 : (evictOldest c (runFrames c p d e bVis k).dataBuffer).length ≤ B := by
      rw [evictOldest_runFrames, hcap]; simp
      omega
    rcases hbuf with h | h | h | h | h | h
    · rw [h]; exact h0
    · rw [h]; exact h1
    · rw [h, hlen]; omega
    · rw [h, detectStage_length, hlen]; omega
    · rw [h, describeStage_length, detectStage_length, hlen]; omega
    · rw [h, matchStage_length, describeStage_length, detectStage_length, hlen]; omega
  · rw [runFrames_dataBuffer, hcap]
    have h1 : k + 1 - B = k + 1 - min (k + 1) B := by omega
    have h2 : k + 1 - (k + 1 - B) = min (k + 1) B := by omega
    rw [h2, h1]
  · intro j
    rw [frameRecord_eq_completedRecord, completedRecord_cameraImg]

/-- C1 at the source configuration: capacity 2, iteration 3. -/
theorem buffer_holds_most_recent_frames_witness :
    (∀ buf ∈ bufferTrace Config.source sampleProviders "FAST" "BRISK" false 3,
        buf.length ≤ 2)
    ∧ (loadImageIntoBuffer Config.source sampleProviders
          (runFrames Config.source sampleProviders "FAST" "BRISK" false 3) 3).dataBuffer
        = (List.range' (3 + 1 - min (3 + 1) 2) (min (3 + 1) 2 - 1)).map
            (frameRecord Config.source sampleProviders "FAST" "BRISK" false)
          ++ [{ DataFrame.empty with cameraImg := frameImage Config.source sampleProviders 3 }]
    ∧ (loadImageIntoBuffer Config.source sampleProviders
          (runFrames Config.source sampleProviders "FAST" "BRISK" false 3) 3).dataBuffer.length
        = min (3 + 1) 2
    ∧ (runFrames Config.source sampleProviders "FAST" "BRISK" false (3 + 1)).dataBuffer
        = (List.range' (3 + 1 - min (3 + 1) 2) (min (3 + 1) 2)).map
            (frameRecord Config.source sampleProviders "FAST" "BRISK" false)
    ∧ ∀ j, (frameRecord Config.source sampleProviders "FAST" "BRISK" false j).cameraImg
        = frameImage Config.source sampleProviders j :=
  buffer_holds_most_recent_frames Config.source sampleProviders "FAST" "BRISK" false 2 3
    (by decide) (by decide) rfl

/-- C2: in a run of `trackFeatures` over `N` frames with buffer capacity 2,
`matchDescriptors` is called in iteration `k` if and only if `k ≥ 1`: the
matched frames are `1, ..., N-1`, each once, frame 0 is the only frame
without a match call, and `numMatches` and `matchTimes` hold one entry per
matched frame. -/
theorem matching_iff_not_first_frame (c : Config) (p : Providers) (d e : String)
    (bVis pd pdd : Bool) (N : Nat) (hB : c.dataBufferSize = 2)
    (hN : frameCount c = some N) :
    ∃ st out, trackFeatures c p d e bVis pd pdd = some (st, out)
      ∧ st = runFrames c p d e bVis N
      ∧ 1 ≤ N
      ∧ (∀ k, k < N → (k ∈ matchedFrames st.calls ↔ 1 ≤ k))
      ∧ matchedFrames st.calls = List.range' 1 (N - 1)
      ∧ (matchedFrames st.calls).length = N - 1
      ∧ skippedFrames N st.calls = [0]
      ∧ (skippedFrames N st.calls).length = 1
      ∧ st.numMatches = (matchedFrames st.calls).map
          (fun k => FVal.num ((frameRecord c p d e bVis k).kptMatches.length : ℚ))
      ∧ st.numMatches.length = N - 1
      ∧ st.matchTimes.length = N - 1 := by
  have hpos := frameCount_pos c N hN
  have hpred : hasPredecessor c = fun k => decide (1 ≤ k) := by
    funext k
    simp [hasPredecessor, hB, toSizeT]
  have hm : matchedFrames (runFrames c p d e bVis N).calls = List.range' 1 (N - 1) := by
    rw [matchedFrames_runFrames, hpred, filter_one_le_range]
  have hmem : ∀ k, k < N →
      (k ∈ matchedFrames (runFrames c p d e bVis N).calls ↔ 1 ≤ k) := by
    intro k hk
    rw [hm, List.mem_range'_1]
    omega
  have hskip : skippedFrames N (runFrames c p d e bVis N).calls = [0] := by
    unfold skippedFrames
    rw [hm]
    obtain ⟨m, rfl⟩ : ∃ m, N = m + 1 := ⟨N - 1, by omega⟩
    rw [List.range_succ_eq_map, List.filter_cons]
    simp only [List.mem_range'_1]
    simp
    intro a ha
    omega
  refine ⟨runFrames c p d e bVis N, report d e pd pdd (runFrames c p d e bVis N),
    ?_, rfl, hpos, hmem, hm, ?_, hskip, ?_, ?_, ?_, ?_⟩
  · simp [trackFeatures, hN]
  · rw [hm]; simp
  · rw [hskip]; rfl
  · rw [hm, frameRecord_fun, runFrames_eq_closedState]
    simp only [closedState, hpred, filter_one_le_range]
    apply List.map_congr_left
    intro k hk
    have hk1 : 1 ≤ k := by
      rw [List.mem_range'_1] at hk; omega
    have : hasPredecessor c k = true := by rw [hpred]; simpa using hk1
    simp [completedRecord, this, FVal.ofNat]
  · rw [runFrames_eq_closedState]
    simp [closedState, hpred, filter_one_le_range]
  · rw [runFrames_eq_closedState]
    simp [closedState, hpred, filter_one_le_range]

/-- C2 at the source configuration: the ten-frame run has 9 matched frames
and 1 frame without a match call. -/
theorem matching_iff_not_first_frame_witness :
    Config.source.dataBufferSize = 2 ∧ frameCount Config.source = some 10
    ∧ ∃ st out, trackFeatures Config.source sampleProviders "FAST" "BRISK" false true true
          = some (st, out)
      ∧ st = runFrames Config.source sampleProviders "FAST" "BRISK" false 10
      ∧ 1 ≤ 10
      ∧ (∀ k, k < 10 → (k ∈ matchedFrames st.calls ↔ 1 ≤ k))
      ∧ matchedFrames st.calls = List.range' 1 (10 - 1)
      ∧ (matchedFrames st.calls).length = 10 - 1
      ∧ skippedFrames 10 st.calls = [0]
      ∧ (skippedFrames 10 st.calls).length = 1
      ∧ st.numMatches = (matchedFrames st.calls).map
          (fun k => FVal.num
            ((frameRecord Config.source sampleProviders "FAST" "BRISK" false
              k).kptMatches.length : ℚ))
      ∧ st.numMatches.length = 10 - 1
      ∧ st.matchTimes.length = 10 - 1 :=
  ⟨rfl, by decide,
    matching_iff_not_first_frame Config.source sampleProviders "FAST" "BRISK" false true true
      10 rfl (by decide)⟩

/-- C3: whenever `matchDescriptors` is called in iteration `k`, then `k ≥ 1`,
the first keypoint/descriptor pair is the one stored in the record of frame
`k - 1` and the second pair the one stored in the record of frame `k` (both
the ROI-filtered keypoints of their frame); the matches are stored in the
record of frame `k`, and the records before the newest one, among them the
record of frame `k - 1`, are as iteration `k` found them. -/
theorem match_arguments_are_adjacent_frames (c : Config) (p : Providers) (d e : String)
    (bVis : Bool) (n k : Nat) (a1 a2 : List KeyPoint) (d1 d2 : Mat) (t1 t2 t3 : String)
    (h : Event.matchDescriptors k a1 a2 d1 d2 t1 t2 t3
      ∈ (runFrames c p d e bVis n).calls) :
    1 ≤ k ∧ k < n
    ∧ a1 = (frameRecord c p d e bVis (k - 1)).keypoints
    ∧ d1 = (frameRecord c p d e bVis (k - 1)).descriptors
    ∧ a2 = (frameRecord c p d e bVis k).keypoints
    ∧ d2 = (frameRecord c p d e bVis k).descriptors
    ∧ (frameRecord c p d e bVis (k - 1)).keypoints
        = focusOnVehicle c p (detected c p d bVis (k - 1)).1
    ∧ (frameRecord c p d e bVis k).keypoints = focusOnVehicle c p (detected c p d bVis k).1
    ∧ (frameRecord c p d e bVis k).kptMatches = (p.matchDescriptors a1 a2 d1 d2 t1 t2 t3).1
    ∧ secondLastFrame (runFrames c p d e bVis (k + 1)).dataBuffer
        = frameRecord c p d e bVis (k - 1)
    ∧ (runFrames c p d e bVis (k + 1)).dataBuffer.dropLast
        = evictOldest c (runFrames c p d e bVis k).dataBuffer := by
  rw [runFrames_eq_closedState] at h
  simp only [closedState, List.mem_flatMap, List.mem_range] at h
  obtain ⟨j, hj, hmem⟩ := h
  obtain ⟨rfl, hp, rfl, rfl, rfl, rfl, hpol⟩ :=
    mem_frameCalls_matchDescriptors c p d e bVis j k a1 a2 d1 d2 t1 t2 t3 hmem
  have hp2 := (hasPredecessor_iff c j).mp hp
  have ht1 : t1 = (matchPolicy e).1 := congrArg Prod.fst hpol
  have ht2 : t2 = (matchPolicy e).2.1 := congrArg (fun x => x.2.1) hpol
  have ht3 : t3 = (matchPolicy e).2.2 := congrArg (fun x => x.2.2) hpol
  subst ht1 ht2 ht3
  have hK : ∀ i, (frameRecord c p d e bVis i).keypoints
      = (describedRecord c p d e bVis i).keypoints := by
    intro i; rw [frameRecord_eq_completedRecord, completedRecord_keypoints]
  have hD : ∀ i, (frameRecord c p d e bVis i).descriptors
      = (describedRecord c p d e bVis i).descriptors := by
    intro i; rw [frameRecord_eq_completedRecord, completedRecord_descriptors]
  refine ⟨hp2.1, hj, (hK _).symm, (hD _).symm, (hK _).symm, (hD _).symm, ?_, ?_, ?_, ?_, ?_⟩
  · rw [hK]; rfl
  · rw [hK]; rfl
  · rw [frameRecord_eq_completedRecord]
    simp [completedRecord, hp, matchResult]
  · rw [frameRecord_eq_completedRecord, runFrames_eq_closedState]
    simp only [closedState]
    rw [secondLastFrame_drop_map_range _ _ _ (by omega)]
    simp
  · rw [runFrames_succ, processFrame_dropLast]

/-- C3 at the source configuration: the match call of iteration 1 in a run of
two frames of the sample routines. -/
theorem match_arguments_are_adjacent_frames_witness :
    Event.matchDescriptors 1 [mkKeyPoint 600 200 4, mkKeyPoint 535 180 2]
        [mkKeyPoint 600 200 4, mkKeyPoint 535 180 2] [[4], [2]] [[4], [2]]
        "DES_BINARY" "MAT_BF" "SEL_KNN"
      ∈ (runFrames Config.source sampleProviders "FAST" "BRISK" false 2).calls
    ∧ (frameRecord Config.source sampleProviders "FAST" "BRISK" false 1).kptMatches
        = (sampleProviders.matchDescriptors [mkKeyPoint 600 200 4, mkKeyPoint 535 180 2]
            [mkKeyPoint 600 200 4, mkKeyPoint 535 180 2] [[4], [2]] [[4], [2]]
            "DES_BINARY" "MAT_BF" "SEL_KNN").1
    ∧ secondLastFrame (runFrames Config.source sampleProviders "FAST" "BRISK" false
          (1 + 1)).dataBuffer
        = frameRecord Config.source sampleProviders "FAST" "BRISK" false (1 - 1) :=
  have h : Event.matchDescriptors 1 [mkKeyPoint 600 200 4, mkKeyPoint 535 180 2]
        [mkKeyPoint 600 200 4, mkKeyPoint 535 180 2] [[4], [2]] [[4], [2]]
        "DES_BINARY" "MAT_BF" "SEL_KNN"
      ∈ (runFrames Config.source sampleProviders "FAST" "BRISK" false 2).calls := by
    with_unfolding_all decide
  have t := match_arguments_are_adjacent_frames Config.source sampleProviders "FAST" "BRISK"
    false 2 1 _ _ _ _ _ _ _ h
  ⟨h, t.2.2.2.2.2.2.2.2.1, t.2.2.2.2.2.2.2.2.2.1⟩

/-- C4: with the ROI enabled and the rectangle `(535, 180, 180, 150)`, the
filter step yields the ordered subsequence of the detected keypoints for
which the rectangle test holds: a keypoint is kept if and only if it is an
input keypoint that passes the test, the result is a sublist of the input
(kept keypoints unchanged, in input order, none added or duplicated), and
the value pushed to `reducedNumKeypoints` is its length.  For a keypoint at
an integral position `(i, j)` the test is `535 <= i < 715` and
`180 <= j < 330`: a keypoint on the left/top corner `(535, 180)` is kept,
one on the right edge or on the bottom edge is not. -/
theorem roi_filter_is_ordered_subsequence (c : Config) (p : Providers)
    (kps : List KeyPoint) (d : String) (bVis : Bool) (img : Mat) (st : RunState) (k : Nat)
    (hroi : c.bFocusOnVehicle = true) (hrect : c.vehicleRect = ⟨535, 180, 180, 150⟩) :
    focusOnVehicle c p kps
        = kps.filter (fun kp => p.rectContains ⟨535, 180, 180, 150⟩ kp.pt)
    ∧ (∀ kp, kp ∈ focusOnVehicle c p kps
        ↔ kp ∈ kps ∧ p.rectContains ⟨535, 180, 180, 150⟩ kp.pt = true)
    ∧ List.Sublist (focusOnVehicle c p kps) kps
    ∧ (∀ kp, (focusOnVehicle c p kps).count kp ≤ kps.count kp)
    ∧ (detectStage c p d bVis img st k).reducedNumKeypoints
        = st.reducedNumKeypoints ++ [FVal.num (((detectKeypoints p d img bVis).1.filter
            (fun kp => p.rectContains ⟨535, 180, 180, 150⟩ kp.pt)).length : ℚ)]
    ∧ (∀ kp ∈ kps, ∀ i j : Int, kp.pt = ⟨(i : ℚ), (j : ℚ)⟩ →
        (kp ∈ focusOnVehicle c p kps ↔ 535 ≤ i ∧ i < 715 ∧ 180 ≤ j ∧ j < 330))
    ∧ (∀ kp ∈ kps, kp.pt = ⟨535, 180⟩ → kp ∈ focusOnVehicle c p kps)
    ∧ (∀ kp ∈ kps, ∀ j : Int, kp.pt = ⟨715, (j : ℚ)⟩ → kp ∉ focusOnVehicle c p kps)
    ∧ (∀ kp ∈ kps, ∀ i : Int, kp.pt = ⟨(i : ℚ), 330⟩ → kp ∉ focusOnVehicle c p kps) := by
  have hf : ∀ l, focusOnVehicle c p l
      = l.filter (fun kp => p.rectContains ⟨535, 180, 180, 150⟩ kp.pt) := by
    intro l
    simp [focusOnVehicle, hroi, hrect, focusLoop_eq_filter]
  have hint : ∀ kp ∈ kps, ∀ i j : Int, kp.pt = ⟨(i : ℚ), (j : ℚ)⟩ →
      (kp ∈ focusOnVehicle c p kps ↔ 535 ≤ i ∧ i < 715 ∧ 180 ≤ j ∧ j < 330) := by
    intro kp hkp i j hpt
    rw [hf, List.mem_filter, hpt, p.rectContains_integral]
    simp only [rectRule, decide_eq_true_eq]
    constructor
    · rintro ⟨_, h1, h2, h3, h4⟩
      have h1' : ((535 : Int) : ℚ) ≤ (i : ℚ) := by simpa using h1
      have h2' : (i : ℚ) < ((715 : Int) : ℚ) := by
        have : ((535 : Int) : ℚ) + ((180 : Int) : ℚ) = ((715 : Int) : ℚ) := by norm_num
        rw [← this]; exact h2
      have h3' : ((180 : Int) : ℚ) ≤ (j : ℚ) := by simpa using h3
      have h4' : (j : ℚ) < ((330 : Int) : ℚ) := by
        have : ((180 : Int) : ℚ) + ((150 : Int) : ℚ) = ((330 : Int) : ℚ) := by norm_num
        rw [← this]; exact h4
      exact ⟨Int.cast_le.mp h1', Int.cast_lt.mp h2', Int.cast_le.mp h3', Int.cast_lt.mp h4'⟩
    · rintro ⟨h1, h2, h3, h4⟩
      have h1' : ((535 : Int) : ℚ) ≤ (i : ℚ) := Int.cast_le.mpr h1
      have h2' : (i : ℚ) < ((715 : Int) : ℚ) := Int.cast_lt.mpr h2
      have h3' : ((180 : Int) : ℚ) ≤ (j : ℚ) := Int.cast_le.mpr h3
      have h4' : (j : ℚ) < ((330 : Int) : ℚ) := Int.cast_lt.mpr h4
      refine ⟨hkp, by simpa using h1', ?_, by simpa using h3', ?_⟩
      · have : ((535 : Int) : ℚ) + ((180 : Int) : ℚ) = ((715 : Int) : ℚ) := by norm_num
        rw [this]; exact h2'
      · have : ((180 : Int) : ℚ) + ((150 : Int) : ℚ) = ((330 : Int) : ℚ) := by norm_num
        rw [this]; exact h4'
  refine ⟨hf kps, ?_, ?_, ?_, ?_, hint, ?_, ?_, ?_⟩
  · intro kp
    rw [hf, List.mem_filter]
  · rw [hf]; exact List.filter_sublist kps
  · intro kp
    rw [hf]; exact (List.filter_sublist kps).count_le kp
  · rw [(detectStage_statistics c p d bVis img st k).1, hf]
    rfl
  · intro kp hkp hpt
    have h := hint kp hkp 535 180 (by rw [hpt]; norm_num)
    exact h.mpr (by decide)
  · intro kp hkp j hpt
    have h := hint kp hkp 715 j (by rw [hpt]; norm_num)
    intro hmem
    have := (h.mp hmem).2.1
    omega
  · intro kp hkp i hpt
    have h := hint kp hkp i 330 (by rw [hpt]; norm_num)
    intro hmem
    have := (h.mp hmem).2.2.2
    omega

/-- C4 on four keypoints at the corners of the source rectangle, with the
half-open rule as the rectangle test. -/
theorem roi_filter_is_ordered_subsequence_witness :
    Config.source.bFocusOnVehicle = true
    ∧ Config.source.vehicleRect = ⟨535, 180, 180, 150⟩
    ∧ focusOnVehicle Config.source sampleProviders
          [mkKeyPoint 714 329 1, mkKeyPoint 715 330 2, mkKeyPoint 534 180 3,
            mkKeyPoint 535 180 4]
        = [mkKeyPoint 714 329 1, mkKeyPoint 535 180 4]
    ∧ (detectStage Config.source sampleProviders "FAST" false [] RunState.init
        0).reducedNumKeypoints = [FVal.num 2] := by
  have t := roi_filter_is_ordered_subsequence Config.source sampleProviders
    [mkKeyPoint 714 329 1, mkKeyPoint 715 330 2, mkKeyPoint 534 180 3, mkKeyPoint 535 180 4]
    "FAST" false [] RunState.init 0 rfl rfl
  refine ⟨rfl, rfl, ?_, ?_⟩
  · rw [t.1]
    simp [sampleProviders, rectRule, mkKeyPoint, List.filter_cons]
    norm_num
  · rw [t.2.2.2.2.1]
    simp [sampleProviders, detectKeypoints, rectRule, mkKeyPoint, List.filter_cons,
      RunState.init]
    norm_num

/-- C5: for a non-empty keypoint list of `n` keypoints the recorded mean is
the sum of the sizes over `n` and the recorded variance is the sum of the
squared deviations from that mean over `n` (population variance); for a
single keypoint the mean is its size and the variance is 0; and these are
the values the loop body pushes to `meanValues` and `stddevValues`. -/
theorem size_statistics_population (kps : List KeyPoint) (h : kps ≠ []) :
    sizeMean kps = FVal.num ((kps.map fun kp => kp.size).sum / (kps.length : ℚ))
    ∧ sizeVariance kps = FVal.num
        ((kps.map fun kp =>
            (kp.size - (kps.map fun kp => kp.size).sum / (kps.length : ℚ)) ^ 2).sum
          / (kps.length : ℚ))
    ∧ (∀ kp : KeyPoint, sizeMean [kp] = FVal.num kp.size ∧ sizeVariance [kp] = FVal.num 0)
    ∧ ∀ (c : Config) (p : Providers) (d : String) (bVis : Bool) (img : Mat) (st : RunState)
        (k : Nat),
        (detectStage c p d bVis img st k).meanValues
          = st.meanValues ++ [sizeMean (focusOnVehicle c p (detectKeypoints p d img bVis).1)]
        ∧ (detectStage c p d bVis img st k).stddevValues
          = st.stddevValues
            ++ [sizeVariance (focusOnVehicle c p (detectKeypoints p d img bVis).1)] := by
  have hlen : kps.length ≠ 0 := fun h0 => h (List.length_eq_zero.mp h0)
  have hmean : ∀ l : List KeyPoint, l.length ≠ 0 →
      sizeMean l = FVal.num ((l.map fun kp => kp.size).sum / (l.length : ℚ)) := by
    intro l hl
    simp [sizeMean, sizeSum_fold, FVal.divCount, hl]
  have hvar : ∀ l : List KeyPoint, l.length ≠ 0 →
      sizeVariance l = FVal.num
        ((l.map fun kp =>
            (kp.size - (l.map fun kp => kp.size).sum / (l.length : ℚ)) ^ 2).sum
          / (l.length : ℚ)) := by
    intro l hl
    simp only [sizeVariance, hmean l hl, varSum_fold]
    simp [FVal.divCount, hl]
  refine ⟨hmean kps hlen, hvar kps hlen, ?_, ?_⟩
  · intro kp
    constructor
    · rw [hmean [kp] (by simp)]; simp
    · rw [hvar [kp] (by simp)]; simp
  · intro c p d bVis img st k
    exact (detectStage_statistics c p d bVis img st k).2

/-- C5 on two keypoints of sizes 4 and 2: mean 3, variance 1. -/
theorem size_statistics_population_witness :
    [mkKeyPoint 600 200 4, mkKeyPoint 535 180 2] ≠ []
    ∧ sizeMean [mkKeyPoint 600 200 4, mkKeyPoint 535 180 2] = FVal.num 3
    ∧ sizeVariance [mkKeyPoint 600 200 4, mkKeyPoint 535 180 2] = FVal.num 1 := by
  have t := size_statistics_population [mkKeyPoint 600 200 4, mkKeyPoint 535 180 2]
    (by simp)
  refine ⟨by simp, ?_, ?_⟩
  · rw [t.1]; simp [mkKeyPoint]; norm_num
  · rw [t.2.1]; simp [mkKeyPoint]; norm_num

/-- C6, as the code has it: when the ROI restriction leaves no keypoint in
iteration `k`, the loop body pushes 0 to `reducedNumKeypoints` and
not-a-number to both `meanValues` and `stddevValues`, and goes on to call
`descKeypoints` on the empty keypoint list. -/
theorem empty_roi_pushes_nan (c : Config) (p : Providers) (d e : String) (bVis : Bool)
    (st : RunState) (k : Nat) (h : focusOnVehicle c p (detected c p d bVis k).1 = []) :
    (processFrame c p d e bVis st k).reducedNumKeypoints
        = st.reducedNumKeypoints ++ [FVal.num 0]
    ∧ (processFrame c p d e bVis st k).meanValues = st.meanValues ++ [FVal.nan]
    ∧ (processFrame c p d e bVis st k).stddevValues = st.stddevValues ++ [FVal.nan]
    ∧ Event.descKeypoints k [] e ∈ (processFrame c p d e bVis st k).calls := by
  have t := processFrame_statistics c p d e bVis st k
  rw [h] at t
  refine ⟨?_, ?_, ?_, t.2.2.2⟩
  · rw [t.1]; simp [FVal.ofNat]
  · rw [t.2.1]; simp [sizeMean, FVal.divCount]
  · rw [t.2.2.1]; simp [sizeVariance, FVal.divCount]

/-- C6, as the code has it, on the first frame of the sample Harris detector,
whose only keypoint lies outside the rectangle. -/
theorem empty_roi_pushes_nan_witness :
    focusOnVehicle Config.source sampleProviders
        (detected Config.source sampleProviders "HARRIS" false 0).1 = []
    ∧ (processFrame Config.source sampleProviders "HARRIS" "BRISK" false RunState.init
        0).meanValues = RunState.init.meanValues ++ [FVal.nan]
    ∧ (processFrame Config.source sampleProviders "HARRIS" "BRISK" false RunState.init
        0).stddevValues = RunState.init.stddevValues ++ [FVal.nan] :=
  have h : focusOnVehicle Config.source sampleProviders
        (detected Config.source sampleProviders "HARRIS" false 0).1 = [] := by
    with_unfolding_all decide
  have t := empty_roi_pushes_nan Config.source sampleProviders "HARRIS" "BRISK" false
    RunState.init 0 h
  ⟨h, t.2.1, t.2.2.1⟩

/-- C6 fails as stated: in the ten-frame run with the sample Harris detector
the ROI restriction leaves no keypoint, the run completes without an error
or a marker, and every entry of `meanValues` and `stddevValues` is
not-a-number. -/
theorem empty_roi_statistics_counterexample :
    focusOnVehicle Config.source sampleProviders
        (detected Config.source sampleProviders "HARRIS" false 0).1 = []
    ∧ (trackFeatures Config.source sampleProviders "HARRIS" "BRISK" false false false).isSome
        = true
    ∧ (runFrames Config.source sampleProviders "HARRIS" "BRISK" false 10).meanValues
        = List.replicate 10 FVal.nan
    ∧ (runFrames Config.source sampleProviders "HARRIS" "BRISK" false 10).stddevValues
        = List.replicate 10 FVal.nan := by
  refine ⟨?_, ?_, ?_, ?_⟩
  · with_unfolding_all decide
  · rfl
  · with_unfolding_all decide
  · with_unfolding_all decide

/-- C7, as the code has it: `trackFeatures` does not validate its
identifiers.  For every detector and descriptor identifier a run completes
as a run of the loop; its first three library calls read image 0, call the
detection routine chosen by string comparison and call `descKeypoints`
with the descriptor identifier as given; a record is in the buffer; and an
identifier other than `SHITOMASI` and `HARRIS` reaches `detKeypointsModern`
unchanged. -/
theorem no_configuration_validation (c : Config) (p : Providers) (d e : String)
    (bVis pd pdd : Bool) (N : Nat) (hN : frameCount c = some N) :
    ∃ st out, trackFeatures c p d e bVis pd pdd = some (st, out)
      ∧ st = runFrames c p d e bVis N
      ∧ st.calls.take 3
          = [Event.imread 0 (fileNumber c 0), detectEvent d 0,
              Event.descKeypoints 0 (focusOnVehicle c p (detected c p d bVis 0).1) e]
      ∧ st.dataBuffer ≠ []
      ∧ (d ≠ "SHITOMASI" → d ≠ "HARRIS" → detectEvent d 0 = Event.detModern 0 d) := by
  have hpos := frameCount_pos c N hN
  obtain ⟨m, rfl⟩ : ∃ m, N = m + 1 := ⟨N - 1, by omega⟩
  refine ⟨runFrames c p d e bVis (m + 1), report d e pd pdd (runFrames c p d e bVis (m + 1)),
    ?_, rfl, runFrames_calls_take c p d e bVis m, ?_, ?_⟩
  · simp [trackFeatures, hN]
  · have hcap := capacity_pos c
    rw [runFrames_dataBuffer]
    intro h0
    have := congrArg List.length h0
    simp at this
    omega
  · intro h1 h2
    simp [detectEvent, h1, h2]

/-- C7, as the code has it, for detector `SIFT` with descriptor `BRISK` at the
source configuration. -/
theorem no_configuration_validation_witness :
    frameCount Config.source = some 10
    ∧ ∃ st out, trackFeatures Config.source sampleProviders "SIFT" "BRISK" false false false
          = some (st, out)
      ∧ st = runFrames Config.source sampleProviders "SIFT" "BRISK" false 10
      ∧ st.calls.take 3
          = [Event.imread 0 (fileNumber Config.source 0), detectEvent "SIFT" 0,
              Event.descKeypoints 0 (focusOnVehicle Config.source sampleProviders
                (detected Config.source sampleProviders "SIFT" false 0).1) "BRISK"]
      ∧ st.dataBuffer ≠ []
      ∧ ("SIFT" ≠ "SHITOMASI" → "SIFT" ≠ "HARRIS"
          → detectEvent "SIFT" 0 = Event.detModern 0 "SIFT") :=
  ⟨by decide,
    no_configuration_validation Config.source sampleProviders "SIFT" "BRISK" false false false
      10 (by decide)⟩

/-- C7 fails as stated: for detector `SIFT` with descriptor `BRISK`, and for
an identifier pair outside the supported sets, `trackFeatures` returns a
completed run in which image 0 was read, the detection routine was called
and the buffer holds two records. -/
theorem incompatible_pair_counterexample :
    (trackFeatures Config.source sampleProviders "SIFT" "BRISK" false false false).isSome
        = true
    ∧ (runFrames Config.source sampleProviders "SIFT" "BRISK" false 10).calls.take 2
        = [Event.imread 0 0, Event.detModern 0 "SIFT"]
    ∧ (runFrames Config.source sampleProviders "SIFT" "BRISK" false 10).dataBuffer.length = 2
    ∧ (trackFeatures Config.source sampleProviders "NO_DETECTOR" "NO_DESCRIPTOR" false false
        false).isSome = true
    ∧ (runFrames Config.source sampleProviders "NO_DETECTOR" "NO_DESCRIPTOR" false 10).calls.take
          2
        = [Event.imread 0 0, Event.detModern 0 "NO_DETECTOR"] := by
  refine ⟨rfl, ?_, ?_, rfl, ?_⟩
  · with_unfolding_all decide
  · with_unfolding_all decide
  · with_unfolding_all decide

/-- C8: the three strings handed to `matchDescriptors` in any call of any run
are `matchPolicy descriptorType`, a function of the descriptor identifier
alone: `DES_HOG` for `SIFT`, `DES_BINARY` for `BRISK`, `BRIEF`, `ORB`, `FREAK`
and `AKAZE`, always with `MAT_BF` and `SEL_KNN`, whatever the detector, the
frame index and the buffer contents are. -/
theorem match_policy_depends_on_descriptor_only (c : Config) (p : Providers) (d e : String)
    (bVis : Bool) (n k : Nat) (a1 a2 : List KeyPoint) (d1 d2 : Mat) (t1 t2 t3 : String)
    (h : Event.matchDescriptors k a1 a2 d1 d2 t1 t2 t3
      ∈ (runFrames c p d e bVis n).calls) :
    (t1, t2, t3) = matchPolicy e
    ∧ t1 = (if e = "SIFT" then "DES_HOG" else "DES_BINARY")
    ∧ t2 = "MAT_BF" ∧ t3 = "SEL_KNN"
    ∧ matchPolicy "SIFT" = ("DES_HOG", "MAT_BF", "SEL_KNN")
    ∧ (∀ e' ∈ ["BRISK", "BRIEF", "ORB", "FREAK", "AKAZE"],
        matchPolicy e' = ("DES_BINARY", "MAT_BF", "SEL_KNN")) := by
  rw [runFrames_eq_closedState] at h
  simp only [closedState, List.mem_flatMap, List.mem_range] at h
  obtain ⟨j, _, hmem⟩ := h
  have hpol := (mem_frameCalls_matchDescriptors c p d e bVis j k a1 a2 d1 d2 t1 t2 t3
    hmem).2.2.2.2.2.2
  have ht1 : t1 = (matchPolicy e).1 := congrArg Prod.fst hpol
  have ht2 : t2 = (matchPolicy e).2.1 := congrArg (fun x => x.2.1) hpol
  have ht3 : t3 = (matchPolicy e).2.2 := congrArg (fun x => x.2.2) hpol
  refine ⟨hpol, ?_, ?_, ?_, ?_, ?_⟩
  · rw [ht1]; rfl
  · rw [ht2]; rfl
  · rw [ht3]; rfl
  · decide
  · decide

/-- C8 on the match call of iteration 1 of a run with detector and descriptor
`SIFT`. -/
theorem match_policy_depends_on_descriptor_only_witness :
    Event.matchDescriptors 1 [mkKeyPoint 600 200 4, mkKeyPoint 535 180 2]
        [mkKeyPoint 600 200 4, mkKeyPoint 535 180 2] [[4], [2]] [[4], [2]]
        "DES_HOG" "MAT_BF" "SEL_KNN"
      ∈ (runFrames Config.source sampleProviders "SIFT" "SIFT" false 2).calls
    ∧ ("DES_HOG", "MAT_BF", "SEL_KNN") = matchPolicy "SIFT" :=
  have h : Event.matchDescriptors 1 [mkKeyPoint 600 200 4, mkKeyPoint 535 180 2]
        [mkKeyPoint 600 200 4, mkKeyPoint 535 180 2] [[4], [2]] [[4], [2]]
        "DES_HOG" "MAT_BF" "SEL_KNN"
      ∈ (runFrames Config.source sampleProviders "SIFT" "SIFT" false 2).calls := by
    with_unfolding_all decide
  ⟨h, (match_policy_depends_on_descriptor_only Config.source sampleProviders "SIFT" "SIFT"
    false 2 1 _ _ _ _ _ _ _ h).1⟩

end FeatureTracking
